import Mathlib

/-!
# Checkout-to-order pipeline of the EcoFinds marketplace

Shallow embedding of the Express/sqlite routes of the repository:
the cart routes (`GET /`, `PUT /update/:itemId`, `DELETE /remove/:itemId`,
`DELETE /clear`), the order routes (`POST /checkout`, `GET /:orderId`) and
the product update route (`PUT /:id`).

Modelling conventions:
* monetary amounts are fixed-point currency with 2 decimals, represented in
  cents as `Int`; the response's `parseFloat(total.toFixed(2))` is therefore
  the identity and is not re-applied;
* sqlite tables are association lists / lists of records, row ids are `Nat`;
* `this.lastID` of an insert into `orders` is modelled as
  `orders.length + 1` (append-only rowid semantics);
* JS truthiness of a request field (absent or `""` is falsy) is modelled by
  `Option String` plus `truthy`;
* storage faults surfaced through the sqlite callbacks' `err` argument are
  injected explicitly through a `Faults` record for the checkout pipeline,
  because the checkout continues after logging some of those errors; the
  cart/product routes return early on their `err` branches without writing,
  so their fault branches leave the store unchanged and are not claim
  relevant there;
* `Math.random().toString(36)` is modelled by the list of base-36 fraction
  digits of the random value (`"0.i"` for one half is the digit list `[18]`,
  `"0"` for zero is `[]`); `substr(2, 5)` of that string is `take 5` of the
  digit list, and `.toUpperCase()` maps each base-36 digit to its uppercase
  character.
-/

namespace OODO

/-- Product availability status: `'available' | 'sold'` in the `products`
table. -/
inductive PStatus
  | available
  | sold
deriving DecidableEq, Repr

/-- A row of the `products` table (fields used by the routes). -/
structure Product where
  title : String
  description : String
  price : Int
  category : String
  condition : String
  imageUrl : String
  sellerId : Nat
  status : PStatus
deriving DecidableEq, Repr

/-- A row of the `cart` table: `(id, user_id, product_id, quantity)`. -/
structure CartLine where
  id : Nat
  userId : Nat
  productId : Nat
  quantity : Int
deriving DecidableEq, Repr

/-- A row of the `orders` table, as inserted by `POST /checkout`. -/
structure Order where
  id : Nat
  userId : Nat
  totalAmount : Int
  customerName : Option String
  customerEmail : Option String
  customerPhone : Option String
  deliveryAddress : Option String
  deliveryNotes : Option String
  orderNumber : String
  status : String
deriving DecidableEq, Repr

/-- A row of the `order_items` table:
`(order_id, product_id, quantity, price)`. -/
structure OrderLine where
  orderId : Nat
  productId : Nat
  quantity : Int
  price : Int
deriving DecidableEq, Repr

/-- The sqlite database: the four tables the checkout pipeline touches.
`products` is an association list keyed by product id. -/
structure DB where
  products : List (Nat × Product)
  cart : List CartLine
  orders : List Order
  orderItems : List OrderLine
deriving DecidableEq, Repr

/-- `SELECT ... FROM products WHERE id = ?`. -/
def findProduct (db : DB) (productId : Nat) : Option Product :=
  (db.products.find? (fun pr => pr.1 == productId)).map Prod.snd

/-- `SELECT id FROM cart WHERE id = ? AND user_id = ?`. -/
def findCartLine (db : DB) (userId itemId : Nat) : Option CartLine :=
  db.cart.find? (fun c => c.id == itemId && c.userId == userId)

/-- Outcome of the cart mutation routes. -/
inductive CartOpResult
  | validationError
  | notFound
  | ok
deriving DecidableEq, Repr

/-- `PUT /update/:itemId`: rejects a missing quantity or `quantity < 1`
(`if (!quantity || quantity < 1)` → 400), returns 404 unless the line
belongs to the caller, otherwise `UPDATE cart SET quantity = ? WHERE id = ?`. -/
def updateQuantity (db : DB) (userId itemId : Nat) (quantity : Option Int) :
    CartOpResult × DB :=
  match quantity with
  | none => (.validationError, db)
  | some q =>
    if q < 1 then (.validationError, db)
    else
      match findCartLine db userId itemId with
      | none => (.notFound, db)
      | some _ =>
        (.ok, { db with
          cart := db.cart.map (fun l =>
            if l.id == itemId then { l with quantity := q } else l) })

/-- `DELETE /remove/:itemId`: returns 404 unless the line belongs to the
caller, otherwise `DELETE FROM cart WHERE id = ?`. -/
def removeItem (db : DB) (userId itemId : Nat) : CartOpResult × DB :=
  match findCartLine db userId itemId with
  | none => (.notFound, db)
  | some _ =>
    (.ok, { db with cart := db.cart.filter (fun l => l.id != itemId) })

/-- `DELETE /clear`: `DELETE FROM cart WHERE user_id = ?`, always a
success response. -/
def clearCart (db : DB) (userId : Nat) : CartOpResult × DB :=
  (.ok, { db with cart := db.cart.filter (fun l => l.userId != userId) })

/-! ## Checkout (`POST /checkout`) -/

/-- The checkout request body. -/
structure CheckoutReq where
  fullName : Option String
  email : Option String
  phone : Option String
  deliveryAddress : Option String
  deliveryNotes : Option String
deriving DecidableEq, Repr

/-- JS truthiness of a string-valued body field: absent and `""` are falsy. -/
def truthy : Option String → Bool
  | none => false
  | some s => s != ""

/-- `if (!fullName || !email || !phone || !deliveryAddress)` — the phase-1
validation gate. -/
def validFields (req : CheckoutReq) : Bool :=
  truthy req.fullName && truthy req.email && truthy req.phone &&
    truthy req.deliveryAddress

/-- The `cartQuery`: `SELECT c.*, p.price, ... FROM cart c JOIN products p
ON c.product_id = p.id WHERE c.user_id = ? AND p.status = 'available'`.
Lines whose product id does not resolve are dropped by the inner join. -/
def cartQuery (db : DB) (userId : Nat) : List (CartLine × Product) :=
  db.cart.filterMap (fun c =>
    if c.userId == userId then
      match findProduct db c.productId with
      | some p => if p.status == .available then some (c, p) else none
      | none => none
    else none)

/-- One base-36 digit printed in uppercase, as produced by
`.toString(36)...toUpperCase()`: digits `0-9` then letters `A-Z`. -/
def base36UpperChar (d : Nat) : Char :=
  if d < 10 then Char.ofNat (48 + d) else Char.ofNat (55 + d)

/-- `'ECO-' + Date.now() + '-' + Math.random().toString(36).substr(2, 5).toUpperCase()`.
`randFrac` is the list of base-36 fraction digits the runtime prints for the
random value; `substr(2, 5)` keeps at most the first five of them. -/
def mkOrderNumber (ts : Nat) (randFrac : List Nat) : String :=
  "ECO-" ++ toString ts ++ "-" ++ String.mk ((randFrac.take 5).map base36UpperChar)

/-- Storage faults injected at the points where the checkout callbacks
receive an `err`.  `lineInsert i` faults the insert of the `i`-th order
item; those errors, and `markSold` / `clearCart` errors, are only logged by
the code (`console.error`) and the pipeline continues. -/
structure Faults where
  cartRead : Bool
  orderInsert : Bool
  lineInsert : Nat → Bool
  markSold : Bool
  clearCart : Bool

/-- The fault-free execution. -/
def noFaults : Faults :=
  { cartRead := false, orderInsert := false, lineInsert := fun _ => false,
    markSold := false, clearCart := false }

/-- Outcome of `POST /checkout` as seen by the caller. -/
inductive CheckoutResult
  | validationError
  | dbError
  | emptyCart
  | orderInsertFailed
  | success (orderId : Nat) (orderNumber : String) (totalAmount : Int)
      (itemCount : Nat)
deriving DecidableEq, Repr

/-- Total of the joined cart rows:
`cartItems.reduce((sum, item) => sum + item.price * item.quantity, 0)`. -/
def orderTotal (items : List (CartLine × Product)) : Int :=
  (items.map (fun ip => ip.2.price * ip.1.quantity)).sum

/-- The per-item `INSERT INTO order_items (order_id, product_id, quantity,
price)` loop.  An insert whose callback receives an `err` is only logged
(`console.error`), so exactly the non-faulted rows are persisted. -/
def orderLineInserts (orderId : Nat) (items : List (CartLine × Product))
    (f : Faults) : List OrderLine :=
  items.enum.filterMap (fun e =>
    if f.lineInsert e.1 then none
    else some { orderId := orderId, productId := e.2.1.productId,
                quantity := e.2.1.quantity, price := e.2.2.price : OrderLine })

/-- The bulk `UPDATE products SET status = 'sold' WHERE id IN (...)`. -/
def markSold (db : DB) (productIds : List Nat) : DB :=
  { db with products := db.products.map (fun pr =>
      if productIds.contains pr.1 then (pr.1, { pr.2 with status := .sold })
      else pr) }

/-- The write phase of the checkout, after the order header insert
succeeded: append the order row, append the order-item rows that did not
fault, run the sold-update (its error is ignored, leaving `products`
unchanged), and `DELETE FROM cart WHERE user_id = ?` (ditto). -/
def checkoutPersist (db : DB) (userId : Nat) (req : CheckoutReq) (ts : Nat)
    (randFrac : List Nat) (f : Faults) (items : List (CartLine × Product)) :
    DB :=
  let orderId := db.orders.length + 1
  let newOrder : Order :=
    { id := orderId, userId := userId, totalAmount := orderTotal items,
      customerName := req.fullName, customerEmail := req.email,
      customerPhone := req.phone, deliveryAddress := req.deliveryAddress,
      deliveryNotes := req.deliveryNotes,
      orderNumber := mkOrderNumber ts randFrac, status := "completed" }
  let db1 := { db with orders := db.orders ++ [newOrder] }
  let db2 := { db1 with
    orderItems := db1.orderItems ++ orderLineInserts orderId items f }
  let db3 :=
    if f.markSold then db2
    else markSold db2 (items.map (fun ip => ip.1.productId))
  if f.clearCart then db3
  else { db3 with cart := db3.cart.filter (fun l => l.userId != userId) }

/-- Route `POST /checkout`, translated step by step:
validation gate; `cartQuery`; empty-cart rejection; total via `orderTotal`;
order-number generation; `orders` insert (500 on failure, nothing written);
then `checkoutPersist` and the 201 response carrying
`{orderId, orderNumber, totalAmount, itemCount}`.  Order-item, sold-update
and cart-delete errors are ignored, so a faulted step leaves its table
unchanged while the pipeline still answers 201. -/
def checkout (db : DB) (userId : Nat) (req : CheckoutReq) (ts : Nat)
    (randFrac : List Nat) (f : Faults) : CheckoutResult × DB :=
  if !validFields req then (.validationError, db)
  else if f.cartRead then (.dbError, db)
  else
    let items := cartQuery db userId
    if items.length == 0 then (.emptyCart, db)
    else if f.orderInsert then (.orderInsertFailed, db)
    else
      (.success (db.orders.length + 1) (mkOrderNumber ts randFrac)
        (orderTotal items) items.length,
       checkoutPersist db userId req ts randFrac f items)

/-! ## Product update (`PUT /:id` of the product routes) -/

/-- The update body of `PUT /:id`; `status || 'available'` makes a falsy
status default to `available`. -/
structure ProductUpdate where
  title : String
  description : String
  price : Int
  category : String
  condition : String
  imageUrl : String
  status : Option PStatus
deriving DecidableEq, Repr

/-- Outcome of `PUT /:id`. -/
inductive UpdateProductResult
  | notFound
  | forbidden
  | ok
deriving DecidableEq, Repr

/-- `PUT /:id`: 404 if the product id is unknown, 403 unless the caller owns
it or is admin, otherwise `UPDATE products SET title = ?, ..., status = ?
WHERE id = ?` — it touches only the `products` table. -/
def updateProduct (db : DB) (callerId : Nat) (callerRole : String)
    (productId : Nat) (u : ProductUpdate) : UpdateProductResult × DB :=
  match findProduct db productId with
  | none => (.notFound, db)
  | some p =>
    if p.sellerId != callerId && callerRole != "admin" then (.forbidden, db)
    else
      (.ok, { db with products := db.products.map (fun pr =>
        if pr.1 == productId then
          (pr.1, { title := u.title, description := u.description,
                   price := u.price, category := u.category,
                   condition := u.condition, imageUrl := u.imageUrl,
                   sellerId := pr.2.sellerId,
                   status := u.status.getD .available })
        else pr) })

/-! ## Order detail (`GET /:orderId` of the order routes) -/

/-- Outcome of `GET /:orderId`.  The items are the order's `order_items`
rows joined back to `products` (the display-only join to `users` for seller
names is omitted from the model). -/
inductive OrderDetailResult
  | notFound
  | found (o : Order) (items : List OrderLine)
deriving DecidableEq, Repr

/-- `GET /:orderId`: `SELECT * FROM orders WHERE id = ? AND user_id = ?`,
404 when that yields no row, otherwise the order together with
`SELECT oi.* ... FROM order_items oi JOIN products p ... WHERE oi.order_id = ?`. -/
def getOrderDetail (db : DB) (userId orderId : Nat) : OrderDetailResult :=
  match db.orders.find? (fun o => o.id == orderId && o.userId == userId) with
  | none => .notFound
  | some o =>
    .found o (db.orderItems.filter (fun l =>
      l.orderId == o.id && (findProduct db l.productId).isSome))

/-! ## Concrete fixtures used by the counterexamples and witnesses -/

/-- An available product priced 89.99, listed by seller 2. -/
def prodA : Product :=
  { title := "A", description := "", price := 8999, category := "Books",
    condition := "Good", imageUrl := "", sellerId := 2, status := .available }

/-- An available product priced 20.00, listed by seller 2. -/
def prodB : Product := { prodA with title := "B", price := 2000 }

/-- An available product priced 50.00, listed by seller 3. -/
def prodC : Product := { prodA with title := "C", price := 5000, sellerId := 3 }

/-- The spec's §8 scenario store: user 1's cart holds product 1 (89.99,
quantity 1) and product 2 (20.00, quantity 2). -/
def db0 : DB :=
  { products := [(1, prodA), (2, prodB)],
    cart := [⟨1, 1, 1, 1⟩, ⟨2, 1, 2, 2⟩],
    orders := [], orderItems := [] }

/-- A store whose single product is contended: it sits both in user 1's and
in user 2's cart. -/
def dbRace : DB :=
  { products := [(1, prodC)],
    cart := [⟨1, 1, 1, 1⟩, ⟨2, 2, 1, 1⟩],
    orders := [], orderItems := [] }

/-- A store where user 1's only cart line references a product already
sold, so the availability-filtered cart is empty. -/
def dbStale : DB :=
  { products := [(1, { prodA with status := .sold })],
    cart := [⟨1, 1, 1, 1⟩],
    orders := [], orderItems := [] }

/-- A store with a single cart line (id 1, user 1, product 1, quantity 2). -/
def dbOneLine : DB :=
  { products := [(1, prodA)], cart := [⟨1, 1, 1, 2⟩],
    orders := [], orderItems := [] }

/-- An order owned by user 2, with one order line. -/
def orderK : Order :=
  { id := 5, userId := 2, totalAmount := 5000, customerName := some "K",
    customerEmail := some "k@example.com", customerPhone := some "5",
    deliveryAddress := some "Z", deliveryNotes := none,
    orderNumber := "ECO-1-AAAAA", status := "completed" }

/-- A store holding only `orderK` and its line. -/
def dbOrders : DB :=
  { products := [(1, prodC)], cart := [], orders := [orderK],
    orderItems := [⟨5, 1, 1, 5000⟩] }

/-- A well-formed checkout request body. -/
def reqOk : CheckoutReq :=
  { fullName := some "Jane Roe", email := some "jane@example.com",
    phone := some "555", deliveryAddress := some "1 Main St",
    deliveryNotes := none }

/-- The same request without a delivery address. -/
def reqNoAddr : CheckoutReq := { reqOk with deliveryAddress := none }

/-- A run in which the insert of the second order item fails. -/
def faultLine1 : Faults := { noFaults with lineInsert := fun i => i == 1 }

/-- A run in which every order-item insert fails. -/
def faultAllLines : Faults := { noFaults with lineInsert := fun _ => true }

/-- A run in which the bulk sold-update fails (its error is ignored). -/
def faultMarkSold : Faults := { noFaults with markSold := true }

/-! ## Theorems -/

/-- Helper: the product update route writes only the `products` table. -/
theorem updateProduct_frame (db : DB) (c : Nat) (role : String) (pid : Nat)
    (u : ProductUpdate) :
    (updateProduct db c role pid u).2.orders = db.orders ∧
    (updateProduct db c role pid u).2.orderItems = db.orderItems := by
  unfold updateProduct
  split
  · exact ⟨rfl, rfl⟩
  · split
    · exact ⟨rfl, rfl⟩
    · exact ⟨rfl, rfl⟩

/-- Helper: a successful checkout response determines its components — the
order number is `mkOrderNumber ts randFrac`, the order id is the fresh row
id, and the total and item count come from the availability-filtered cart. -/
theorem checkout_success_inversion (db : DB) (userId : Nat)
    (req : CheckoutReq) (ts : Nat) (r : List Nat) (f : Faults) (oid : Nat)
    (onum : String) (total : Int) (n : Nat)
    (h : (checkout db userId req ts r f).1 = .success oid onum total n) :
    onum = mkOrderNumber ts r ∧ oid = db.orders.length + 1 ∧
      total = orderTotal (cartQuery db userId) ∧
      n = (cartQuery db userId).length := by
  unfold checkout at h
  split_ifs at h <;>
    rcases eq_or_ne (cartQuery db userId) [] with hq | hq <;> simp_all

/-- C1: refuted on the code (code bug documented by the spec's §9 note on
the missing transaction).  In the §8 scenario store, when the insert of the
second order item fails (the callback only logs the error), the checkout
still answers 201 with `totalAmount = 129.99`, but the only persisted
OrderLine for the order is product 1 at 89.99: the returned total is not
the sum over the persisted OrderLines. -/
theorem checkout_total_drifts_from_persisted_lines :
    (checkout db0 1 reqOk 0 [] faultLine1).1 = .success 1 "ECO-0-" 12999 2 ∧
    (checkout db0 1 reqOk 0 [] faultLine1).2.orderItems = [⟨1, 1, 1, 8999⟩] ∧
    (((checkout db0 1 reqOk 0 [] faultLine1).2.orderItems.filter
        (fun l => l.orderId == 1)).map (fun l => l.price * l.quantity)).sum
      = 8999 ∧
    (12999 : Int) ≠ 8999 := by
  decide

/-- C2: refuted on the code (code bug documented by the spec's §9 note).
When every order-item insert fails, the checkout still answers 201 and the
final store holds one Order with zero OrderLines, and both products are
marked sold although no order line references them. -/
theorem checkout_success_with_zero_order_lines :
    (checkout db0 1 reqOk 0 [] faultAllLines).1 = .success 1 "ECO-0-" 12999 2 ∧
    (checkout db0 1 reqOk 0 [] faultAllLines).2.orders.length = 1 ∧
    (checkout db0 1 reqOk 0 [] faultAllLines).2.orderItems = [] ∧
    findProduct (checkout db0 1 reqOk 0 [] faultAllLines).2 1 =
      some { prodA with status := .sold } := by
  decide

/-- C3: refuted on the code (code bug: the sold-update error is ignored).
User 1 checks out product 1 but the bulk sold-update fails, leaving the
product available; user 2 then checks out the same product.  Both orders
(ids 1 and 2) end up holding an OrderLine for product id 1. -/
theorem product_double_sold_after_ignored_update_failure :
    (checkout dbRace 1 reqOk 0 [] faultMarkSold).1 = .success 1 "ECO-0-" 5000 1 ∧
    (checkout (checkout dbRace 1 reqOk 0 [] faultMarkSold).2
        2 reqOk 0 [] noFaults).1 = .success 2 "ECO-0-" 5000 1 ∧
    (checkout (checkout dbRace 1 reqOk 0 [] faultMarkSold).2
        2 reqOk 0 [] noFaults).2.orderItems =
      [⟨1, 1, 1, 5000⟩, ⟨2, 1, 1, 5000⟩] ∧
    (1 : Nat) ≠ 2 := by
  decide

/-- C4: confirmed.  A checkout whose availability-filtered cart is empty —
no lines, or only lines on unavailable or dangling products — is rejected
with the empty-cart error, and the store is returned unchanged, so no Order
is persisted. -/
theorem checkout_empty_cart_rejected (db : DB) (userId : Nat)
    (req : CheckoutReq) (ts : Nat) (r : List Nat) (f : Faults)
    (hv : validFields req = true) (hf : f.cartRead = false)
    (hq : cartQuery db userId = []) :
    checkout db userId req ts r f = (.emptyCart, db) := by
  simp [checkout, hv, hf, hq]

/-- Witness for C4: user 1's only cart line references a sold product, so
the filtered cart is empty and the checkout rejects without writing. -/
theorem checkout_empty_cart_rejected_witness :
    checkout dbStale 1 reqOk 0 [] noFaults = (.emptyCart, dbStale) :=
  checkout_empty_cart_rejected dbStale 1 reqOk 0 [] noFaults (by decide)
    (by decide) (by decide)

/-- C5: confirmed.  A checkout with a missing (or empty) required delivery
field answers the validation error, for every store and every fault
pattern, and returns the store unchanged: the response does not depend on
the cart or catalog, so the rejection happens before any read, with no side
effects. -/
theorem checkout_missing_field_no_side_effects (db : DB) (userId : Nat)
    (req : CheckoutReq) (ts : Nat) (r : List Nat) (f : Faults)
    (hv : validFields req = false) :
    checkout db userId req ts r f = (.validationError, db) := by
  simp [checkout, hv]

/-- Witness for C5: the request without a delivery address is rejected and
the §8 scenario store is untouched. -/
theorem checkout_missing_field_no_side_effects_witness :
    checkout db0 1 reqNoAddr 3 [] noFaults = (.validationError, db0) :=
  checkout_missing_field_no_side_effects db0 1 reqNoAddr 3 [] noFaults
    (by decide)

/-- C6: confirmed.  After any checkout, a product update — in particular
one that changes the catalog price — leaves the `orders` and `order_items`
tables exactly as they were: every persisted OrderLine price and every
Order total is a snapshot, never a live reference to the catalog price. -/
theorem order_lines_immutable_under_product_update (db : DB) (userId : Nat)
    (req : CheckoutReq) (ts : Nat) (r : List Nat) (f : Faults)
    (callerId : Nat) (role : String) (pid : Nat) (u : ProductUpdate) :
    (updateProduct (checkout db userId req ts r f).2 callerId role pid u).2.orders
        = (checkout db userId req ts r f).2.orders ∧
    (updateProduct (checkout db userId req ts r f).2 callerId role pid u).2.orderItems
        = (checkout db userId req ts r f).2.orderItems :=
  updateProduct_frame ((checkout db userId req ts r f).2) callerId role pid u

/-- Counterexample for C7: the code's suffix is
`Math.random().toString(36).substr(2, 5)`, which is shorter than five
characters whenever the random value's base-36 expansion is short: for the
achievable value one half (`(0.5).toString(36) = "0.i"`, fraction digits
`[18]`) a successful checkout returns order number `ECO-0-I`, whose suffix
has length 1, so no five-character decomposition exists. -/
theorem order_number_five_char_suffix_refuted :
    (checkout db0 1 reqOk 0 [18] noFaults).1 = .success 1 "ECO-0-I" 12999 2 ∧
    ¬ ∃ suf : String, "ECO-0-I" = "ECO-" ++ toString 0 ++ "-" ++ suf ∧
      suf.length = 5 ∧ (∀ c ∈ suf.data, (c.isUpper || c.isDigit) = true) := by
  constructor
  · decide
  · rintro ⟨suf, heq, hlen, -⟩
    have h1 := congrArg String.length heq
    rw [String.length_append, String.length_append, String.length_append,
      hlen] at h1
    exact absurd h1 (by decide)

/-- C7 as amended: every successful checkout's order number is
`ECO-<ts>-<suffix>` where the suffix consists of at most five uppercase
alphanumeric characters — exactly five whenever the random value's base-36
expansion has at least five fraction digits. -/
theorem order_number_amended_shape (db : DB) (userId : Nat)
    (req : CheckoutReq) (ts : Nat) (r : List Nat) (f : Faults) (oid : Nat)
    (onum : String) (total : Int) (n : Nat) (hd : ∀ d ∈ r, d < 36)
    (h : (checkout db userId req ts r f).1 = .success oid onum total n) :
    ∃ suf : String, onum = "ECO-" ++ toString ts ++ "-" ++ suf ∧
      suf.length ≤ 5 ∧ (∀ c ∈ suf.data, (c.isUpper || c.isDigit) = true) ∧
      (5 ≤ r.length → suf.length = 5) := by
  have honum : onum = mkOrderNumber ts r := by
    unfold checkout at h
    split_ifs at h <;>
      rcases eq_or_ne (cartQuery db userId) [] with hq | hq <;> simp_all
  subst honum
  have hchar : ∀ d, d < 36 →
      ((base36UpperChar d).isUpper || (base36UpperChar d).isDigit) = true := by
    decide
  refine ⟨String.mk ((r.take 5).map base36UpperChar), rfl, ?_, ?_, ?_⟩
  · show ((r.take 5).map base36UpperChar).length ≤ 5
    simp [List.length_take]
  · intro c hc
    rcases List.mem_map.mp hc with ⟨d, hdm, rfl⟩
    exact hchar d (hd d (List.take_subset 5 r hdm))
  · intro h5
    show ((r.take 5).map base36UpperChar).length = 5
    simp [List.length_take]
    omega

/-- Witness for the amended C7: a successful checkout with random fraction
digits `[10, 11, 12, 13, 14]` yields order number `ECO-0-ABCDE`, which has
the amended shape. -/
theorem order_number_amended_shape_witness :
    ∃ suf : String, "ECO-0-ABCDE" = "ECO-" ++ toString 0 ++ "-" ++ suf ∧
      suf.length ≤ 5 ∧ (∀ c ∈ suf.data, (c.isUpper || c.isDigit) = true) ∧
      (5 ≤ [10, 11, 12, 13, 14].length → suf.length = 5) :=
  order_number_amended_shape db0 1 reqOk 0 [10, 11, 12, 13, 14] noFaults
    1 "ECO-0-ABCDE" 12999 2 (by decide) (by decide)

/-- Counterexample for C8: with a cart line of quantity 2 owned by user 1,
an update to quantity 0 is answered with the validation error
(`if (!quantity || quantity < 1)` → 400), not a success, and the line still
exists afterwards — quantity < 1 is not treated as removal. -/
theorem update_quantity_below_one_removal_refuted :
    updateQuantity dbOneLine 1 1 (some 0) = (.validationError, dbOneLine) ∧
    findCartLine (updateQuantity dbOneLine 1 1 (some 0)).2 1 1 =
      some ⟨1, 1, 1, 2⟩ ∧
    CartOpResult.validationError ≠ .ok := by
  decide

/-- C8 as amended: a quantity strictly below 1 is rejected with a
validation error and the cart is left unchanged (removal never happens). -/
theorem update_quantity_below_one_rejected (db : DB) (u i : Nat) (q : Int)
    (hq : q < 1) :
    updateQuantity db u i (some q) = (.validationError, db) := by
  simp [updateQuantity, hq]

/-- Witness for the amended C8: the concrete quantity-0 update is rejected
and leaves the store unchanged. -/
theorem update_quantity_below_one_rejected_witness :
    updateQuantity dbOneLine 1 1 (some 0) = (.validationError, dbOneLine) :=
  update_quantity_below_one_rejected dbOneLine 1 1 0 (by decide)

/-- Counterexample for C9: removing a cart line that does not exist is
answered with a 404 not-found error, not an idempotent no-op success. -/
theorem remove_missing_line_success_refuted :
    removeItem dbOneLine 1 99 = (.notFound, dbOneLine) ∧
    CartOpResult.notFound ≠ .ok := by
  decide

/-- C9 as amended: clearing the cart always succeeds and is idempotent
(clearing an already-empty cart succeeds), but removing a line the caller
does not own — including a non-existent or already-removed one — returns
the not-found error rather than a no-op success. -/
theorem cart_removal_clear_semantics (db : DB) (u i : Nat) :
    (findCartLine db u i = none → removeItem db u i = (.notFound, db)) ∧
    (clearCart db u).1 = .ok ∧
    clearCart (clearCart db u).2 u = (.ok, (clearCart db u).2) := by
  refine ⟨fun h => ?_, rfl, ?_⟩
  · simp [removeItem, h]
  · simp [clearCart, List.filter_filter]

/-- Witness for the amended C9: user 2 cannot remove user 1's line (404),
and clearing user 1's cart succeeds and is idempotent. -/
theorem cart_removal_clear_semantics_witness :
    removeItem dbOneLine 2 1 = (.notFound, dbOneLine) ∧
    (clearCart dbOneLine 1).1 = .ok ∧
    clearCart (clearCart dbOneLine 1).2 1 = (.ok, (clearCart dbOneLine 1).2) :=
  ⟨(cart_removal_clear_semantics dbOneLine 2 1).1 (by decide),
   (cart_removal_clear_semantics dbOneLine 1 1).2.1,
   (cart_removal_clear_semantics dbOneLine 1 1).2.2⟩

/-- C10: confirmed.  The order-detail query is owner-scoped: it yields an
order exactly when an order with the requested id owned by the caller is in
the store, any order it yields is such an order, and otherwise — whether
the id is absent or the order belongs to someone else — the result is the
single `notFound` value, indistinguishable between the two cases. -/
theorem order_detail_owner_scoped (db : DB) (userId orderId : Nat) :
    ((∃ o items, getOrderDetail db userId orderId = .found o items) ↔
      ∃ o, o ∈ db.orders ∧ o.id = orderId ∧ o.userId = userId) ∧
    (∀ o items, getOrderDetail db userId orderId = .found o items →
      o ∈ db.orders ∧ o.id = orderId ∧ o.userId = userId) := by
  unfold getOrderDetail
  cases h : db.orders.find? (fun o => o.id == orderId && o.userId == userId) with
  | none =>
    rw [List.find?_eq_none] at h
    constructor
    · constructor
      · rintro ⟨o, items, ho⟩; exact absurd ho (by simp)
      · rintro ⟨o, hmem, h1, h2⟩
        exact absurd (by simp [h1, h2]) (h o hmem)
    · intro o items ho; exact absurd ho (by simp)
  | some o =>
    have hmem := List.mem_of_find?_eq_some h
    have hp := List.find?_some h
    simp only [Bool.and_eq_true, beq_iff_eq] at hp
    constructor
    · constructor
      · rintro -; exact ⟨o, hmem, hp.1, hp.2⟩
      · rintro -; exact ⟨o, _, rfl⟩
    · rintro o' items' ho'
      cases ho'
      exact ⟨hmem, hp.1, hp.2⟩

/-- Witness for C10: in the store holding only order 5 owned by user 2, the
owner-scoping holds for user 1's query of order 5 (which yields nothing,
since user 1 does not own it). -/
theorem order_detail_owner_scoped_witness :
    ((∃ o items, getOrderDetail dbOrders 1 5 = .found o items) ↔
      ∃ o, o ∈ dbOrders.orders ∧ o.id = 5 ∧ o.userId = 1) ∧
    (∀ o items, getOrderDetail dbOrders 1 5 = .found o items →
      o ∈ dbOrders.orders ∧ o.id = 5 ∧ o.userId = 1) :=
  order_detail_owner_scoped dbOrders 1 5

end OODO
